import Mathlib

/-!
Shallow embedding of the qrcode_scanner crate core (src/lib.rs and
src/image_decode.rs), together with theorems checking the natural-language
specification against it.

Conventions of the embedding:
* Rust u32 values are Nat; wherever the source can overflow (the cost
  computation in choose_framesize, which multiplies and adds u32 values),
  every arithmetic step is taken modulo 2^32, matching release-mode
  wrap-around semantics.  u32::abs_diff is Nat.dist (exact, no wrap).
* io::Result is Except IOError; the io::ErrorKind values used by the crate
  are the ErrorKind inductive below.
* External collaborators (the v4l device backend, the ffimage / image pixel
  crates, the rxing barcode reader) are modelled as explicit oracle
  parameters or, where the spec pins their contract, as definitions marked
  "Modelled from the spec".
* A v4l FrameSize is represented by the list of discrete sizes its
  to_discrete() expansion yields (the spec makes range-to-discrete expansion
  the backend's responsibility), so choose_framesize consumes a list of
  (fourcc, discrete-size-list) pairs exactly like the source's nested loop.
* Stateful code is state passing: decode_next maps a State to a result and
  a successor State; the mmap capture stream is an oracle Nat -> frame
  indexed by a position stored in the state.
-/

/-- Error kinds of std::io used by the crate. -/
inductive ErrorKind where
  | InvalidInput
  | NotFound
deriving DecidableEq

/-- An io::Error as the crate builds them: a kind plus a message. -/
structure IOError where
  kind : ErrorKind
  msg : String
deriving DecidableEq

/-- FourCC codes are opaque equality-comparable 4-character tags. -/
abbrev FourCC := String

/-- Target frame size requested by the caller (src/lib.rs TargetFrameSize). -/
structure TargetFrameSize where
  width : Nat
  height : Nat
deriving DecidableEq

/-- One candidate capture mode: (fourcc, width, height). -/
abbrev Cand := FourCC × Nat × Nat

/-- Modulus of u32 arithmetic. -/
def u32Mod : Nat := 4294967296

/-- Largest u32 value, the initial `diff` sentinel in choose_framesize. -/
def u32Max : Nat := 4294967295

/-- Cost of a candidate size for a target, as the source computes it:
diff_h*diff_h + diff_w*diff_w + diff_h*diff_w in u32 arithmetic, every
operation wrapping modulo 2^32 (src/lib.rs lines 80-83). -/
def cost (target : TargetFrameSize) (width height : Nat) : Nat :=
  let diff_h := Nat.dist target.height height
  let diff_w := Nat.dist target.width width
  ((diff_h * diff_h % u32Mod + diff_w * diff_w % u32Mod) % u32Mod
    + diff_h * diff_w % u32Mod) % u32Mod

/-- Cost of a candidate triple. -/
def costC (target : TargetFrameSize) (c : Cand) : Nat :=
  cost target c.2.1 c.2.2

/-- Cost of a candidate size without wrap-around (for comparison lemmas). -/
def costPure (target : TargetFrameSize) (width height : Nat) : Nat :=
  Nat.dist target.height height * Nat.dist target.height height
    + Nat.dist target.width width * Nat.dist target.width width
    + Nat.dist target.height height * Nat.dist target.width width

/-- Running best of the selection loop in choose_framesize: the mutable
locals width, height, diff, fourcc of the source. -/
structure BestChoice where
  width : Nat
  height : Nat
  diff : Nat
  fourcc : FourCC
deriving DecidableEq

/-- One iteration of the selection loop body (src/lib.rs lines 78-91):
replace the running best only on strictly smaller cost. -/
def chooseStep (target : TargetFrameSize) (st : BestChoice) (c : Cand) :
    BestChoice :=
  let this_diff := cost target c.2.1 c.2.2
  if this_diff < st.diff then ⟨c.2.1, c.2.2, this_diff, c.1⟩ else st

/-- Flattening of the (fourcc, framesize) pairs into the candidate triples
the nested loops of choose_framesize visit, in visit order: the source
reverses the vector and pops from the back, which is original order, and
walks each framesize's to_discrete() list in order. -/
def candidates : List (FourCC × List (Nat × Nat)) → List Cand
  | [] => []
  | (f, sizes) :: rest =>
      sizes.map (fun s => (f, s.1, s.2)) ++ candidates rest

/-- Embedding of choose_framesize (src/lib.rs lines 68-100): fold the
selection step over all candidates starting from the sentinel best
(width 0, height 0, diff u32::MAX, fourcc "0000"); if the sentinel diff
survives, no format is supported. -/
def choose_framesize (formats : List (FourCC × List (Nat × Nat)))
    (target : TargetFrameSize) : Except IOError Cand :=
  let fin := (candidates formats).foldl (chooseStep target) ⟨0, 0, u32Max, "0000"⟩
  if fin.diff = u32Max then
    Except.error ⟨ErrorKind.InvalidInput, "No camera format supported"⟩
  else
    Except.ok (fin.fourcc, fin.width, fin.height)

/-- Decoded RGB raster with its dimensions (the image crate's RgbImage,
reduced to the fields the claims inspect). -/
structure Image where
  width : Nat
  height : Nat
  raster : List Nat
deriving DecidableEq

/-- Embedding of image_decode_error (src/image_decode.rs lines 12-16). -/
def image_decode_error : Except IOError Image :=
  Except.error ⟨ErrorKind.InvalidInput, "Failed to convert to image"⟩

/-- Modelled from the spec: the ffimage packed-YUYV image view over a byte
buffer, which accepts the buffer exactly when its length is the well-formed
frame size width*height*2 (2 bytes per pixel in packed 4:2:2). -/
def imageViewFromBuf (src : List Nat) (width height : Nat) :
    Option (List Nat) :=
  if src.length = width * height * 2 then some src else none

/-- Modelled from the spec: clamp a channel value to [0, 255]. -/
def clamp255 (x : Int) : Nat := (max 0 (min 255 x)).toNat

/-- Modelled from the spec: a standard BT.601-class fixed-point YUV to RGB
transform with clamping (the ffimage conversion collaborator). -/
def yuvToRgb (p : Nat × Nat × Nat) : Nat × Nat × Nat :=
  let c : Int := (p.1 : Int) - 16
  let d : Int := (p.2.1 : Int) - 128
  let e : Int := (p.2.2 : Int) - 128
  (clamp255 ((298 * c + 409 * e + 128).fdiv 256),
   clamp255 ((298 * c - 100 * d - 208 * e + 128).fdiv 256),
   clamp255 ((298 * c + 516 * d + 128).fdiv 256))

/-- Modelled from the spec: expand the repeating 4-byte groups
[Y0, U, Y1, V] of a packed YUYV buffer into per-pixel YUV triples, U and V
shared by the pixel pair; an incomplete trailing group contributes
nothing (the destination buffer is pre-filled, see fillPixels). -/
def yuyvPairsToYuv : List Nat → List (Nat × Nat × Nat)
  | y0 :: u :: y1 :: v :: rest =>
      (y0, u, v) :: (y1, u, v) :: yuyvPairsToYuv rest
  | _ => []

/-- Modelled from the source's use of ffimage ImageBuffer::new(w, h, 0):
the destination holds exactly n pixels, pre-filled with zero, and the
conversion writes the converted pixels into it. -/
def fillPixels (n : Nat) (xs : List (Nat × Nat × Nat)) :
    List (Nat × Nat × Nat) :=
  xs.take n ++ List.replicate (n - xs.length) (0, 0, 0)

/-- Flatten RGB pixel triples into the tightly packed byte raster. -/
def rgbBytes : List (Nat × Nat × Nat) → List Nat
  | [] => []
  | p :: rest => p.1 :: p.2.1 :: p.2.2 :: rgbBytes rest

/-- Modelled from the spec: the image crate's RgbImage::from_vec, which
accepts a raster exactly when its length is width*height*3. -/
def rgbImageFromVec (width height : Nat) (buf : List Nat) : Option Image :=
  if buf.length = width * height * 3 then some ⟨width, height, buf⟩ else none

/-- Embedding of yuv422_to_image (src/image_decode.rs lines 18-35): view the
buffer as packed YUYV (length check), convert to per-pixel YUV 4:4:4 into a
width*height destination, convert to RGB, and build the final image (length
check); each failed check yields image_decode_error. -/
def yuv422_to_image (src : List Nat) (width height : Nat) :
    Except IOError Image :=
  match imageViewFromBuf src width height with
  | none => image_decode_error
  | some buf =>
    let yuv444 := fillPixels (width * height) (yuyvPairsToYuv buf)
    let rgb := rgbBytes (yuv444.map yuvToRgb)
    match rgbImageFromVec width height rgb with
    | some i => Except.ok i
    | none => image_decode_error

/-- Embedding of guess_image (src/image_decode.rs lines 37-54): delegate to
the external still-image codec, modelled from the spec as an oracle that
auto-detects the encoding; any codec failure is the decode error. -/
def guess_image (codec : List Nat → Option Image) (src : List Nat)
    (_width _height : Nat) : Except IOError Image :=
  match codec src with
  | some i => Except.ok i
  | none => image_decode_error

/-- Converter functions: bytes, width, height to image. -/
abbrev Converter := List Nat → Nat → Nat → Except IOError Image

/-- Embedding of converter_for_fourcc (src/lib.rs lines 137-148): YUYV maps
to the packed-YUV converter, MJPG to the generic codec, anything else is
unsupported. -/
def converter_for_fourcc (codec : List Nat → Option Image)
    (fourcc : FourCC) : Except IOError Converter :=
  if fourcc = "YUYV" then Except.ok yuv422_to_image
  else if fourcc = "MJPG" then Except.ok (guess_image codec)
  else Except.error ⟨ErrorKind.InvalidInput, "No Camera format supported"⟩

/-- Result of the rxing barcode reader for one recognized symbol, reduced
to the field the crate reads (getText). -/
structure RXingResult where
  text : String
deriving DecidableEq

/-- Embedding of RXingResult::getText. -/
def RXingResult.getText (r : RXingResult) : String := r.text

/-- Opaque rxing exception value. -/
structure Exceptions where
  msg : String
deriving DecidableEq

/-- Embedding of decoded_results_to_vec (src/lib.rs lines 43-58): a decoder
error yields the empty list (logged only), a success yields the texts in
reported order. -/
def decoded_results_to_vec
    (results : Except Exceptions (List RXingResult)) : List String :=
  match results with
  | Except.error _e => []
  | Except.ok r => r.map RXingResult.getText

/-- Embedding of empty_test_error (src/lib.rs lines 102-107). -/
def empty_test_error : Except IOError (List String) :=
  Except.error ⟨ErrorKind.NotFound, "End of test data reached"⟩

/-- Negotiated v4l format, reduced to the fields the crate uses. -/
structure Format where
  fourcc : FourCC
  width : Nat
  height : Nat
deriving DecidableEq

/-- Session state (src/lib.rs State): Live capture, fixed test frames, or
fixed test results.  The mmap stream is an oracle from capture index to
frame outcome plus the current index; the decoder handle is external and
passed to decode_next as an oracle. -/
inductive State where
  | v4l (cam : Nat → Except IOError (List Nat)) (pos : Nat)
      (format : Format) (converter : Converter)
  | testImages (input_data : List (FourCC × Nat × Nat × List Nat))
  | testResults (results : List (Except IOError (List String)))

/-- Variant tag of a session state. -/
inductive StateTag where
  | v4l
  | testImages
  | testResults
deriving DecidableEq

/-- Tag of a state. -/
def State.tag : State → StateTag
  | State.v4l _ _ _ _ => StateTag.v4l
  | State.testImages _ => StateTag.testImages
  | State.testResults _ => StateTag.testResults

/-- Embedding of QRScanStream::decode_next (src/lib.rs lines 311-356) as a
state transformer.  codec is the external still-image codec oracle, cap the
external barcode decode capability.  TestResults pops and returns the front
outcome; V4l captures one frame and converts with the bound converter;
TestImages pops the front entry, re-resolves a converter from its tagged
fourcc, and converts.  In the imaging variants the decoder output is
normalized by decoded_results_to_vec and always wrapped in ok. -/
def decode_next (codec : List Nat → Option Image)
    (cap : Image → Except Exceptions (List RXingResult)) :
    State → Except IOError (List String) × State
  | State.testResults results =>
    match results with
    | i :: rest => (i, State.testResults rest)
    | [] => (empty_test_error, State.testResults [])
  | State.v4l cam pos format conv =>
    (match cam pos with
     | Except.error e => Except.error e
     | Except.ok buf =>
       match conv buf format.width format.height with
       | Except.error e => Except.error e
       | Except.ok img => Except.ok (decoded_results_to_vec (cap img)),
     State.v4l cam (pos + 1) format conv)
  | State.testImages input_data =>
    match input_data with
    | [] => (empty_test_error, State.testImages [])
    | (f, w, h, buf) :: rest =>
      (match converter_for_fourcc codec f with
       | Except.error e => Except.error e
       | Except.ok conv =>
         match conv buf w h with
         | Except.error e => Except.error e
         | Except.ok img => Except.ok (decoded_results_to_vec (cap img)),
       State.testImages rest)

/-- Result of the (n+1)-th decode_next call, starting from state st. -/
def decode_iter (codec : List Nat → Option Image)
    (cap : Image → Except Exceptions (List RXingResult)) :
    State → Nat → Except IOError (List String) × State
  | st, 0 => decode_next codec cap st
  | st, n + 1 => decode_iter codec cap (decode_next codec cap st).2 n

/-- The v4l device backend, as the oracle bundle of the calls the crate
makes: framesize enumeration (each advertised FrameSize given by its
to_discrete() list), format get/set, capture stream creation, and the
capture stream itself. -/
structure Device where
  enum_framesizes : FourCC → Except IOError (List (List (Nat × Nat)))
  get_format : Except IOError Format
  set_format : Format → Except IOError Format
  stream_create : Except IOError Unit
  frames : Nat → Except IOError (List Nat)

/-- Embedding of the format collection loop of choose_and_set_format
(src/lib.rs lines 113-119): enumerate framesizes for YUYV then MJPG,
keeping (fourcc, framesize) pairs in enumeration order. -/
def collectFormats (dev : Device) :
    Except IOError (List (FourCC × List (Nat × Nat))) :=
  match dev.enum_framesizes "YUYV" with
  | Except.error e => Except.error e
  | Except.ok l1 =>
    match dev.enum_framesizes "MJPG" with
    | Except.error e => Except.error e
    | Except.ok l2 =>
      Except.ok (l1.map (fun s => ("YUYV", s)) ++ l2.map (fun s => ("MJPG", s)))

/-- Embedding of choose_and_set_format (src/lib.rs lines 109-135): collect
candidates, choose a framesize, fetch the current device format, overwrite
fourcc/width/height, set it, and fail if the device did not honor the
requested fourcc. -/
def choose_and_set_format (dev : Device) (target : TargetFrameSize) :
    Except IOError Format :=
  match collectFormats dev with
  | Except.error e => Except.error e
  | Except.ok formats =>
    match choose_framesize formats target with
    | Except.error e => Except.error e
    | Except.ok (fourcc, width, height) =>
      match dev.get_format with
      | Except.error e => Except.error e
      | Except.ok _fmt0 =>
        match dev.set_format ⟨fourcc, width, height⟩ with
        | Except.error e => Except.error e
        | Except.ok fmt =>
          if fmt.fourcc ≠ fourcc then
            Except.error ⟨ErrorKind.InvalidInput, "Camera does not support YUYV"⟩
          else Except.ok fmt

/-- Embedding of QRScanStream::with_framesize (src/lib.rs lines 188-214):
open the device (via the world oracle), negotiate and set the format,
create the capture stream, perform the discarded warm-up capture (index 0),
bind the converter for the negotiated fourcc, and enter the V4l state at
capture index 1. -/
def with_framesize (codec : List Nat → Option Image)
    (world : String → Except IOError Device) (path : String)
    (target : TargetFrameSize) : Except IOError State :=
  match world path with
  | Except.error e => Except.error e
  | Except.ok dev =>
    match choose_and_set_format dev target with
    | Except.error e => Except.error e
    | Except.ok format =>
      match dev.stream_create with
      | Except.error e => Except.error e
      | Except.ok _ =>
        match dev.frames 0 with
        | Except.error e => Except.error e
        | Except.ok _ =>
          match converter_for_fourcc codec format.fourcc with
          | Except.error e => Except.error e
          | Except.ok conv =>
            Except.ok (State.v4l dev.frames 1 format conv)

/-- Embedding of QRScanStream::new (src/lib.rs lines 164-172): delegate to
with_framesize with the default 640x480 target. -/
def new (codec : List Nat → Option Image)
    (world : String → Except IOError Device) (path : String) :
    Except IOError State :=
  with_framesize codec world path ⟨640, 480⟩

/-- Embedding of QRScanStream::with_test_images (src/lib.rs lines 255-267). -/
def with_test_images (data : List (FourCC × Nat × Nat × List Nat)) :
    Except IOError State :=
  Except.ok (State.testImages data)

/-- Embedding of QRScanStream::with_test_results (src/lib.rs lines 296-302). -/
def with_test_results (data : List (Except IOError (List String))) :
    Except IOError State :=
  Except.ok (State.testResults data)

/-- Sample codec oracle for witnesses: recognizes nothing. -/
def sampleCodec : List Nat → Option Image := fun _ => none

/-- Sample barcode capability oracle for witnesses: finds one symbol. -/
def sampleCap : Image → Except Exceptions (List RXingResult) :=
  fun _ => Except.ok [⟨"hello"⟩]

/-- Sample world oracle for witnesses: no device present. -/
def sampleWorld : String → Except IOError Device :=
  fun _ => Except.error ⟨ErrorKind.NotFound, "no device"⟩

/-! ## Helper lemmas about the selection fold -/

/-- Every computed cost is a u32 value. -/
theorem cost_lt_mod (t : TargetFrameSize) (w h : Nat) : cost t w h < u32Mod := by
  have hpos : 0 < u32Mod := by norm_num [u32Mod]
  simp only [cost]
  exact Nat.mod_lt _ hpos

/-- Every computed cost is at most the u32::MAX sentinel. -/
theorem costC_le_max (t : TargetFrameSize) (c : Cand) : costC t c ≤ u32Max := by
  have h := cost_lt_mod t c.2.1 c.2.2
  have : u32Mod = u32Max + 1 := by norm_num [u32Mod, u32Max]
  rw [this] at h
  exact Nat.lt_succ_iff.mp h

/-- Wrapping the cost computation step by step agrees with one final
reduction of the pure cost modulo 2^32. -/
theorem cost_eq_pure_mod (t : TargetFrameSize) (w h : Nat) :
    cost t w h = costPure t w h % u32Mod := by
  simp only [cost, costPure]
  conv_rhs =>
    rw [Nat.add_mod, Nat.add_mod (Nat.dist t.height h * Nat.dist t.height h)
      (Nat.dist t.width w * Nat.dist t.width w)]

/-- Characterization of the selection loop: folding the strict-improvement
step over a candidate list either leaves the running best untouched (no
candidate beats it) or produces the first candidate attaining the minimum
cost among those beating the initial best. -/
theorem foldl_chooseStep_char (t : TargetFrameSize) (l : List Cand) :
    ∀ st : BestChoice,
      (List.foldl (chooseStep t) st l = st ∧ ∀ c ∈ l, st.diff ≤ costC t c) ∨
      (∃ i, ∃ hi : i < l.length,
        List.foldl (chooseStep t) st l =
          ⟨(l.get ⟨i, hi⟩).2.1, (l.get ⟨i, hi⟩).2.2,
            costC t (l.get ⟨i, hi⟩), (l.get ⟨i, hi⟩).1⟩ ∧
        costC t (l.get ⟨i, hi⟩) < st.diff ∧
        (∀ j, ∀ hj : j < l.length,
          costC t (l.get ⟨i, hi⟩) ≤ costC t (l.get ⟨j, hj⟩)) ∧
        (∀ j, ∀ hj : j < l.length, j < i →
          costC t (l.get ⟨i, hi⟩) < costC t (l.get ⟨j, hj⟩))) := by
  induction l with
  | nil =>
    intro st
    exact Or.inl ⟨rfl, by simp⟩
  | cons c l ih =>
    intro st
    by_cases hc : costC t c < st.diff
    · have hstep : chooseStep t st c = ⟨c.2.1, c.2.2, costC t c, c.1⟩ := by
        simp only [chooseStep, costC] at hc ⊢
        rw [if_pos hc]
      rw [List.foldl_cons, hstep]
      rcases ih ⟨c.2.1, c.2.2, costC t c, c.1⟩ with ⟨heq, hall⟩ |
        ⟨i, hi, heq, hlt, hmin, hstrict⟩
      · refine Or.inr ⟨0, Nat.succ_pos _, ?_, ?_, ?_, ?_⟩
        · simpa using heq
        · simpa using hc
        · intro j hj
          cases j with
          | zero => simp
          | succ j =>
            have hj2 : j < l.length := Nat.lt_of_succ_lt_succ hj
            have hmem := hall (l.get ⟨j, hj2⟩) (l.get_mem j hj2)
            simpa using hmem
        · intro j hj hji
          exact absurd hji (Nat.not_lt_zero j)
      · have hlt2 : costC t (l.get ⟨i, hi⟩) < costC t c := by simpa using hlt
        refine Or.inr ⟨i + 1, Nat.succ_lt_succ hi, ?_, ?_, ?_, ?_⟩
        · simpa using heq
        · simpa using lt_trans hlt2 hc
        · intro j hj
          cases j with
          | zero => simpa using le_of_lt hlt2
          | succ j =>
            have hj2 : j < l.length := Nat.lt_of_succ_lt_succ hj
            have := hmin j hj2
            simpa using this
        · intro j hj hji
          cases j with
          | zero => simpa using hlt2
          | succ j =>
            have hj2 : j < l.length := Nat.lt_of_succ_lt_succ hj
            have := hstrict j hj2 (Nat.lt_of_succ_lt_succ hji)
            simpa using this
    · have hstep2 : chooseStep t st c = st := by
        simp only [chooseStep, costC] at hc ⊢
        rw [if_neg hc]
      rw [List.foldl_cons, hstep2]
      have hcle : st.diff ≤ costC t c := Nat.le_of_not_lt hc
      rcases ih st with ⟨heq, hall⟩ | ⟨i, hi, heq, hlt, hmin, hstrict⟩
      · refine Or.inl ⟨heq, ?_⟩
        intro x hx
        rcases List.mem_cons.mp hx with hx | hx
        · rw [hx]; exact hcle
        · exact hall x hx
      · refine Or.inr ⟨i + 1, Nat.succ_lt_succ hi, ?_, ?_, ?_, ?_⟩
        · simpa using heq
        · simpa using hlt
        · intro j hj
          cases j with
          | zero => simpa using le_of_lt (lt_of_lt_of_le hlt hcle)
          | succ j =>
            have hj2 : j < l.length := Nat.lt_of_succ_lt_succ hj
            have := hmin j hj2
            simpa using this
        · intro j hj hji
          cases j with
          | zero => simpa using lt_of_lt_of_le hlt hcle
          | succ j =>
            have hj2 : j < l.length := Nat.lt_of_succ_lt_succ hj
            have := hstrict j hj2 (Nat.lt_of_succ_lt_succ hji)
            simpa using this

/-- Success characterization of choose_framesize: a returned triple is the
candidate at some position i, its cost is below the u32::MAX sentinel, it
is cost-minimal over the whole candidate list, and every earlier candidate
has strictly larger cost. -/
theorem choose_framesize_ok_mem (formats : List (FourCC × List (Nat × Nat)))
    (target : TargetFrameSize) (r : Cand)
    (hr : choose_framesize formats target = Except.ok r) :
    ∃ i, ∃ hi : i < (candidates formats).length,
      (candidates formats).get ⟨i, hi⟩ = r ∧
      costC target r < u32Max ∧
      (∀ j, ∀ hj : j < (candidates formats).length,
        costC target r ≤ costC target ((candidates formats).get ⟨j, hj⟩)) ∧
      (∀ j, ∀ hj : j < (candidates formats).length, j < i →
        costC target r < costC target ((candidates formats).get ⟨j, hj⟩)) := by
  rcases foldl_chooseStep_char target (candidates formats)
      ⟨0, 0, u32Max, "0000"⟩ with ⟨heq, _⟩ |
    ⟨i, hi, heq, hlt, hmin, hstrict⟩
  · exfalso
    simp only [choose_framesize] at hr
    rw [heq] at hr
    simp at hr
  · simp only [choose_framesize] at hr
    rw [heq] at hr
    have hlt2 : costC target ((candidates formats).get ⟨i, hi⟩) < u32Max := hlt
    have hne : costC target ((candidates formats).get ⟨i, hi⟩) ≠ u32Max :=
      ne_of_lt hlt2
    simp only [List.get_eq_getElem] at hne
    simp [hne] at hr
    refine ⟨i, hi, hr, ?_, ?_, ?_⟩
    · rw [← hr]; exact hlt2
    · intro j hj
      rw [← hr]; exact hmin j hj
    · intro j hj hji
      rw [← hr]; exact hstrict j hj hji

/-- Existence direction: as soon as one candidate costs less than the
u32::MAX sentinel, choose_framesize returns the first minimal candidate. -/
theorem choose_framesize_finds (formats : List (FourCC × List (Nat × Nat)))
    (target : TargetFrameSize)
    (h : ∃ c ∈ candidates formats, costC target c < u32Max) :
    ∃ i, ∃ hi : i < (candidates formats).length,
      choose_framesize formats target =
        Except.ok ((candidates formats).get ⟨i, hi⟩) ∧
      (∀ j, ∀ hj : j < (candidates formats).length,
        costC target ((candidates formats).get ⟨i, hi⟩) ≤
          costC target ((candidates formats).get ⟨j, hj⟩)) := by
  rcases foldl_chooseStep_char target (candidates formats)
      ⟨0, 0, u32Max, "0000"⟩ with ⟨_, hall⟩ |
    ⟨i, hi, heq, hlt, hmin, _⟩
  · exfalso
    rcases h with ⟨c, hc, hclt⟩
    have hge : u32Max ≤ costC target c := hall c hc
    exact absurd hclt (not_lt.mpr hge)
  · refine ⟨i, hi, ?_, hmin⟩
    have hlt2 : costC target ((candidates formats).get ⟨i, hi⟩) < u32Max := hlt
    have hne : costC target ((candidates formats).get ⟨i, hi⟩) ≠ u32Max :=
      ne_of_lt hlt2
    simp only [List.get_eq_getElem] at hne
    simp only [choose_framesize]
    rw [heq]
    simp [hne]

/-- An empty candidate list makes choose_framesize fail with the
unsupported-format error. -/
theorem choose_framesize_empty (formats : List (FourCC × List (Nat × Nat)))
    (target : TargetFrameSize) (h : candidates formats = []) :
    choose_framesize formats target =
      Except.error ⟨ErrorKind.InvalidInput, "No camera format supported"⟩ := by
  simp [choose_framesize, h]

/-! ## Claim theorems -/

/-- Claim C1 (amended): whenever some candidate's wrapped cost is below the
u32::MAX sentinel, choose_framesize returns a candidate of the list whose
cost diff_h^2 + diff_w^2 + diff_h*diff_w (u32 wrap-around arithmetic) is
minimal over the list; in particular on the spec example (candidates
AAAA 640x80, BBBB 480x200, AAAA 580x400 and target 640x480) it returns
(AAAA, 580x400).  The unamended claim fails when every candidate cost wraps
to exactly u32::MAX, see the counterexample. -/
theorem choose_framesize_picks_min_cost
    (formats : List (FourCC × List (Nat × Nat))) (target : TargetFrameSize)
    (h : ∃ c ∈ candidates formats, costC target c < u32Max) :
    (∃ c ∈ candidates formats,
      choose_framesize formats target = Except.ok c ∧
      ∀ d ∈ candidates formats, costC target c ≤ costC target d) ∧
    choose_framesize [("AAAA", [(640, 80)]), ("BBBB", [(480, 200)]),
        ("AAAA", [(580, 400)])] ⟨640, 480⟩ =
      Except.ok ("AAAA", 580, 400) := by
  constructor
  · rcases choose_framesize_finds formats target h with ⟨i, hi, hok, hmin⟩
    refine ⟨(candidates formats).get ⟨i, hi⟩, List.get_mem _ _ _, hok, ?_⟩
    intro d hd
    rcases List.mem_iff_get.mp hd with ⟨⟨j, hj⟩, rfl⟩
    exact hmin j hj
  · rfl

/-- Claim C1 witness: the amended theorem applied to the spec example. -/
theorem choose_framesize_picks_min_cost_inst :
    ∃ c ∈ candidates [(("AAAA" : FourCC), [((640 : Nat), (80 : Nat))]),
        ("BBBB", [(480, 200)]), ("AAAA", [(580, 400)])],
      choose_framesize [("AAAA", [(640, 80)]), ("BBBB", [(480, 200)]),
          ("AAAA", [(580, 400)])] ⟨640, 480⟩ = Except.ok c ∧
      ∀ d ∈ candidates [(("AAAA" : FourCC), [((640 : Nat), (80 : Nat))]),
          ("BBBB", [(480, 200)]), ("AAAA", [(580, 400)])],
        costC ⟨640, 480⟩ c ≤ costC ⟨640, 480⟩ d :=
  (choose_framesize_picks_min_cost
    [("AAAA", [(640, 80)]), ("BBBB", [(480, 200)]), ("AAAA", [(580, 400)])]
    ⟨640, 480⟩ (by decide)).1

/-- Claim C1 counterexample: on the non-empty single-candidate list
AAAA 1x833855397 with target 0x0 the wrapped cost is exactly u32::MAX
(833855397^2 + 1 + 833855397 is congruent to 2^32 - 1 modulo 2^32), so the
sentinel never improves and choose_framesize returns an error instead of
the minimal-cost candidate. -/
theorem choose_framesize_min_claim_cex :
    choose_framesize [("AAAA", [(1, 833855397)])] ⟨0, 0⟩ =
      Except.error ⟨ErrorKind.InvalidInput, "No camera format supported"⟩ ∧
    choose_framesize [("AAAA", [(1, 833855397)])] ⟨0, 0⟩ ≠
      Except.ok ("AAAA", 1, 833855397) := by
  have he : choose_framesize [("AAAA", [(1, 833855397)])] ⟨0, 0⟩ =
      Except.error ⟨ErrorKind.InvalidInput, "No camera format supported"⟩ := by
    rfl
  refine ⟨he, ?_⟩
  intro hok
  rw [he] at hok
  exact Except.noConfusion hok

/-- Claim C2 (amended): choose_framesize succeeds exactly when some
candidate's wrapped cost is below the u32::MAX sentinel (so in particular
for every candidate list on which no cost wraps to u32::MAX), every
returned triple is a member of the candidate list, and on an empty
candidate list it fails with the InvalidInput error "No camera format
supported".  The unamended claim (success on every non-empty list) fails
when all costs wrap to u32::MAX, see the counterexample. -/
theorem choose_framesize_success_iff
    (formats : List (FourCC × List (Nat × Nat))) (target : TargetFrameSize) :
    ((∃ r, choose_framesize formats target = Except.ok r) ↔
      ∃ c ∈ candidates formats, costC target c < u32Max) ∧
    (∀ r, choose_framesize formats target = Except.ok r →
      r ∈ candidates formats) ∧
    (candidates formats = [] →
      choose_framesize formats target =
        Except.error ⟨ErrorKind.InvalidInput, "No camera format supported"⟩) := by
  refine ⟨⟨?_, ?_⟩, ?_, choose_framesize_empty formats target⟩
  · rintro ⟨r, hr⟩
    rcases choose_framesize_ok_mem formats target r hr with
      ⟨i, hi, hget, hltmax, _, _⟩
    refine ⟨r, ?_, hltmax⟩
    rw [← hget]
    exact List.get_mem _ _ _
  · intro h
    rcases choose_framesize_finds formats target h with ⟨i, hi, hok, _⟩
    exact ⟨_, hok⟩
  · intro r hr
    rcases choose_framesize_ok_mem formats target r hr with
      ⟨i, hi, hget, _, _, _⟩
    rw [← hget]
    exact List.get_mem _ _ _

/-- Claim C2 witness: the amended theorem at the spec example list and at
the empty list. -/
theorem choose_framesize_success_iff_inst :
    (∃ r, choose_framesize [(("AAAA" : FourCC), [((640 : Nat), (80 : Nat))])]
        ⟨640, 480⟩ = Except.ok r) ∧
    choose_framesize [] ⟨640, 480⟩ =
      Except.error ⟨ErrorKind.InvalidInput, "No camera format supported"⟩ :=
  ⟨(choose_framesize_success_iff [("AAAA", [(640, 80)])] ⟨640, 480⟩).1.mpr
      (by decide),
   (choose_framesize_success_iff [] ⟨640, 480⟩).2.2 rfl⟩

/-- Claim C2 counterexample: a non-empty candidate list (one candidate,
QQQQ 1x833855397, target 0x0) on which choose_framesize does not succeed
but returns the unsupported-format error, because the candidate's wrapped
cost is exactly the u32::MAX sentinel. -/
theorem choose_framesize_nonempty_error_cex :
    candidates [("QQQQ", [(1, 833855397)])] = [("QQQQ", 1, 833855397)] ∧
    choose_framesize [("QQQQ", [(1, 833855397)])] ⟨0, 0⟩ =
      Except.error ⟨ErrorKind.InvalidInput, "No camera format supported"⟩ :=
  ⟨rfl, rfl⟩

/-- Claim C3: replacement of the running best happens only on strictly
smaller cost, so among candidates of identical computed cost the
first-enumerated one wins: whenever choose_framesize returns r and the
candidate at position j has the same cost as r, the returned candidate r
already occurs at some position i ≤ j of the enumeration. -/
theorem choose_framesize_tie_first
    (formats : List (FourCC × List (Nat × Nat))) (target : TargetFrameSize)
    (r : Cand) (hr : choose_framesize formats target = Except.ok r) :
    ∀ j, ∀ hj : j < (candidates formats).length,
      costC target ((candidates formats).get ⟨j, hj⟩) = costC target r →
      ∃ i, ∃ hi : i < (candidates formats).length,
        i ≤ j ∧ (candidates formats).get ⟨i, hi⟩ = r := by
  rcases choose_framesize_ok_mem formats target r hr with
    ⟨i, hi, hget, _, _, hstrict⟩
  intro j hj hcost
  by_cases hij : i ≤ j
  · exact ⟨i, hi, hij, hget⟩
  · exfalso
    have hji : j < i := Nat.lt_of_not_le hij
    have hlt := hstrict j hj hji
    rw [hcost] at hlt
    exact lt_irrefl _ hlt

/-- Claim C3 witness: two equal-cost candidates AAAA 100x100 and
BBBB 100x100 under target 0x0; the returned candidate occurs at a position
at most 1, and indeed the first one is returned. -/
theorem choose_framesize_tie_first_inst :
    (∃ i, ∃ hi : i <
        (candidates [(("AAAA" : FourCC), [((100 : Nat), (100 : Nat))]),
          ("BBBB", [(100, 100)])]).length,
      i ≤ 1 ∧ (candidates [(("AAAA" : FourCC), [((100 : Nat), (100 : Nat))]),
          ("BBBB", [(100, 100)])]).get ⟨i, hi⟩ = ("AAAA", 100, 100)) ∧
    choose_framesize [("AAAA", [(100, 100)]), ("BBBB", [(100, 100)])] ⟨0, 0⟩ =
      Except.ok ("AAAA", 100, 100) :=
  ⟨choose_framesize_tie_first [("AAAA", [(100, 100)]), ("BBBB", [(100, 100)])]
      ⟨0, 0⟩ ("AAAA", 100, 100) rfl 1 (by decide) (by decide),
   rfl⟩

/-- Claim C4 (amended): if candidate A's per-axis differences are both at
most candidate B's and B's pure (unwrapped) cost stays below 2^32, then A's
computed u32 cost is at most B's.  Without the overflow bound the claim
fails, see the counterexample. -/
theorem cost_monotone_without_overflow (target : TargetFrameSize)
    (aw ah bw bh : Nat)
    (hw : Nat.dist target.width aw ≤ Nat.dist target.width bw)
    (hh : Nat.dist target.height ah ≤ Nat.dist target.height bh)
    (hov : costPure target bw bh < u32Mod) :
    cost target aw ah ≤ cost target bw bh := by
  have hpure : costPure target aw ah ≤ costPure target bw bh := by
    unfold costPure
    exact add_le_add (add_le_add (Nat.mul_le_mul hh hh) (Nat.mul_le_mul hw hw))
      (Nat.mul_le_mul hh hw)
  rw [cost_eq_pure_mod, cost_eq_pure_mod,
    Nat.mod_eq_of_lt hov, Nat.mod_eq_of_lt (lt_of_le_of_lt hpure hov)]
  exact hpure

/-- Claim C4 witness: the amended monotonicity at target 0x0 with
candidates 1x1 and 2x2. -/
theorem cost_monotone_without_overflow_inst :
    cost ⟨0, 0⟩ 1 1 ≤ cost ⟨0, 0⟩ 2 2 :=
  cost_monotone_without_overflow ⟨0, 0⟩ 1 1 2 2 (by decide) (by decide)
    (by decide)

/-- Claim C4 counterexample: with target 0x0, candidate A 37837x37837 has
both per-axis differences at most candidate B's 37838x37838 and they are
not all equal, yet A's u32 cost (4294915707) exceeds B's, because B's pure
cost 3*37838^2 overflows and wraps to 175436. -/
theorem cost_monotone_wrap_cex :
    Nat.dist 0 37837 ≤ Nat.dist 0 37838 ∧ (37837 : Nat) ≠ 37838 ∧
    ¬ cost ⟨0, 0⟩ 37837 37837 ≤ cost ⟨0, 0⟩ 37838 37838 := by
  decide

/-- Length of the flattened RGB raster: three bytes per pixel. -/
theorem rgbBytes_length (l : List (Nat × Nat × Nat)) :
    (rgbBytes l).length = 3 * l.length := by
  induction l with
  | nil => rfl
  | cons p rest ih =>
    simp [rgbBytes, ih]
    ring

/-- The pre-filled destination buffer always holds exactly n pixels. -/
theorem fillPixels_length (n : Nat) (xs : List (Nat × Nat × Nat)) :
    (fillPixels n xs).length = n := by
  simp [fillPixels]
  omega

/-- Claim C5: yuv422_to_image succeeds exactly on buffers of the
well-formed packed 4:2:2 length width*height*2; a success is a
width x height image whose RGB raster has length width*height*3, and any
other buffer length yields the InvalidInput decode-failure error. -/
theorem yuv422_to_image_length_spec (width height : Nat) (src : List Nat) :
    ((∃ img, yuv422_to_image src width height = Except.ok img) ↔
      src.length = width * height * 2) ∧
    (∀ img, yuv422_to_image src width height = Except.ok img →
      img.width = width ∧ img.height = height ∧
      img.raster.length = width * height * 3) ∧
    (src.length ≠ width * height * 2 →
      yuv422_to_image src width height =
        Except.error ⟨ErrorKind.InvalidInput, "Failed to convert to image"⟩) := by
  by_cases hlen : src.length = width * height * 2
  · have hraster :
        (rgbBytes ((fillPixels (width * height)
          (yuyvPairsToYuv src)).map yuvToRgb)).length = width * height * 3 := by
      rw [rgbBytes_length, List.length_map, fillPixels_length]
      ring
    have hmain : yuv422_to_image src width height =
        Except.ok ⟨width, height,
          rgbBytes ((fillPixels (width * height)
            (yuyvPairsToYuv src)).map yuvToRgb)⟩ := by
      simp [yuv422_to_image, imageViewFromBuf, hlen, rgbImageFromVec, hraster]
    refine ⟨⟨fun _ => hlen, fun _ => ⟨_, hmain⟩⟩, ?_, fun hne => absurd hlen hne⟩
    intro img hok
    rw [hmain] at hok
    cases hok
    exact ⟨rfl, rfl, hraster⟩
  · have hmain : yuv422_to_image src width height =
        Except.error ⟨ErrorKind.InvalidInput, "Failed to convert to image"⟩ := by
      simp [yuv422_to_image, imageViewFromBuf, hlen, image_decode_error]
    refine ⟨⟨?_, fun h => absurd h hlen⟩, ?_, fun _ => hmain⟩
    · rintro ⟨img, himg⟩
      rw [hmain] at himg
      exact Except.noConfusion himg
    · intro img himg
      rw [hmain] at himg
      exact Except.noConfusion himg

/-- Claim C5 witness: a 3-byte buffer for a 2x1 frame (expected length 4)
is rejected with the decode-failure error, and a 4-byte buffer for a 2x1
frame is accepted. -/
theorem yuv422_to_image_length_spec_inst :
    yuv422_to_image [1, 2, 3] 2 1 =
      Except.error ⟨ErrorKind.InvalidInput, "Failed to convert to image"⟩ ∧
    (∃ img, yuv422_to_image [16, 128, 16, 128] 2 1 = Except.ok img) :=
  ⟨(yuv422_to_image_length_spec 2 1 [1, 2, 3]).2.2 (by decide),
   (yuv422_to_image_length_spec 2 1 [16, 128, 16, 128]).1.mpr (by decide)⟩

/-- Claim C6: decode_next never surfaces an error of the barcode decode
capability.  decoded_results_to_vec maps a capability error to the empty
list and a capability success to the reported texts in order, and once
capture and conversion have succeeded, decode_next in the V4l or
TestImages variant returns Ok of exactly that normalization, whatever the
capability reported. -/
theorem decode_next_tolerates_decoder_errors :
    (∀ e, decoded_results_to_vec (Except.error e) = []) ∧
    (∀ rs, decoded_results_to_vec (Except.ok rs) = rs.map RXingResult.getText) ∧
    (∀ codec cap cam pos format conv buf img,
      cam pos = Except.ok buf →
      conv buf format.width format.height = Except.ok img →
      (decode_next codec cap (State.v4l cam pos format conv)).1 =
        Except.ok (decoded_results_to_vec (cap img))) ∧
    (∀ codec cap f w h buf rest conv img,
      converter_for_fourcc codec f = Except.ok conv →
      conv buf w h = Except.ok img →
      (decode_next codec cap (State.testImages ((f, w, h, buf) :: rest))).1 =
        Except.ok (decoded_results_to_vec (cap img))) := by
  refine ⟨fun e => rfl, fun rs => rfl, ?_, ?_⟩
  · intro codec cap cam pos format conv buf img hcam hconv
    simp [decode_next, hcam, hconv]
  · intro codec cap f w h buf rest conv img hconvf hconv
    simp [decode_next, hconvf, hconv]

/-- Claim C6 witness: a trivially succeeding camera and converter with the
sample capability that reports one symbol. -/
theorem decode_next_tolerates_decoder_errors_inst :
    (decode_next sampleCodec sampleCap
      (State.v4l (fun _ => Except.ok []) 0 ⟨"YUYV", 0, 0⟩
        (fun _ _ _ => Except.ok ⟨0, 0, []⟩))).1 =
      Except.ok (decoded_results_to_vec (sampleCap ⟨0, 0, []⟩)) :=
  decode_next_tolerates_decoder_errors.2.2.1 sampleCodec sampleCap
    (fun _ => Except.ok []) 0 ⟨"YUYV", 0, 0⟩
    (fun _ _ _ => Except.ok ⟨0, 0, []⟩) [] ⟨0, 0, []⟩ rfl rfl

/-- Iterated decode_next on a TestResults session: the n-th call returns
the n-th queued outcome while the queue lasts, and the exhausted-input
error forever after. -/
theorem decode_iter_testResults (codec : List Nat → Option Image)
    (cap : Image → Except Exceptions (List RXingResult)) :
    ∀ (n : Nat) (q : List (Except IOError (List String))),
      (∀ hn : n < q.length,
        (decode_iter codec cap (State.testResults q) n).1 = q.get ⟨n, hn⟩) ∧
      (q.length ≤ n →
        (decode_iter codec cap (State.testResults q) n).1 =
          Except.error ⟨ErrorKind.NotFound, "End of test data reached"⟩) := by
  intro n
  induction n with
  | zero =>
    intro q
    cases q with
    | nil =>
      refine ⟨fun hn => absurd hn (by simp), fun _ => rfl⟩
    | cons x rest =>
      refine ⟨fun hn => rfl, fun hlen => ?_⟩
      simp at hlen
  | succ n ih =>
    intro q
    cases q with
    | nil =>
      have hstep : (decode_next codec cap (State.testResults [])).2 =
          State.testResults [] := rfl
      refine ⟨fun hn => absurd hn (by simp), fun _ => ?_⟩
      show (decode_iter codec cap
        (decode_next codec cap (State.testResults [])).2 n).1 = _
      rw [hstep]
      exact (ih []).2 (by simp)
    | cons x rest =>
      have hstep : (decode_next codec cap (State.testResults (x :: rest))).2 =
          State.testResults rest := rfl
      constructor
      · intro hn
        show (decode_iter codec cap
          (decode_next codec cap (State.testResults (x :: rest))).2 n).1 = _
        rw [hstep]
        exact (ih rest).1 (Nat.lt_of_succ_lt_succ hn)
      · intro hlen
        show (decode_iter codec cap
          (decode_next codec cap (State.testResults (x :: rest))).2 n).1 = _
        rw [hstep]
        exact (ih rest).2 (Nat.le_of_succ_le_succ hlen)

/-- Claim C7: a TestResults session built from a queue of N outcomes
replays exactly those N outcomes in front-to-back order on the first N
decode_next calls, and every later call returns the NotFound error
"End of test data reached". -/
theorem test_results_replay_then_exhausted (codec : List Nat → Option Image)
    (cap : Image → Except Exceptions (List RXingResult))
    (q : List (Except IOError (List String))) :
    with_test_results q = Except.ok (State.testResults q) ∧
    (∀ n, ∀ hn : n < q.length,
      (decode_iter codec cap (State.testResults q) n).1 = q.get ⟨n, hn⟩) ∧
    (∀ n, q.length ≤ n →
      (decode_iter codec cap (State.testResults q) n).1 =
        Except.error ⟨ErrorKind.NotFound, "End of test data reached"⟩) :=
  ⟨rfl, fun n hn => (decode_iter_testResults codec cap n q).1 hn,
   fun n hlen => (decode_iter_testResults codec cap n q).2 hlen⟩

/-- Claim C7 witness: the spec's fixed-results example queue of four
outcomes replayed in order, then exhausted on the fifth and sixth calls. -/
theorem test_results_replay_then_exhausted_inst :
    (decode_iter sampleCodec sampleCap (State.testResults
      [Except.ok ["t1", "t2"], Except.error ⟨ErrorKind.InvalidInput, ""⟩,
       Except.ok [], Except.ok ["t3"]]) 0).1 = Except.ok ["t1", "t2"] ∧
    (decode_iter sampleCodec sampleCap (State.testResults
      [Except.ok ["t1", "t2"], Except.error ⟨ErrorKind.InvalidInput, ""⟩,
       Except.ok [], Except.ok ["t3"]]) 1).1 =
      Except.error ⟨ErrorKind.InvalidInput, ""⟩ ∧
    (decode_iter sampleCodec sampleCap (State.testResults
      [Except.ok ["t1", "t2"], Except.error ⟨ErrorKind.InvalidInput, ""⟩,
       Except.ok [], Except.ok ["t3"]]) 3).1 = Except.ok ["t3"] ∧
    (decode_iter sampleCodec sampleCap (State.testResults
      [Except.ok ["t1", "t2"], Except.error ⟨ErrorKind.InvalidInput, ""⟩,
       Except.ok [], Except.ok ["t3"]]) 4).1 =
      Except.error ⟨ErrorKind.NotFound, "End of test data reached"⟩ ∧
    (decode_iter sampleCodec sampleCap (State.testResults
      [Except.ok ["t1", "t2"], Except.error ⟨ErrorKind.InvalidInput, ""⟩,
       Except.ok [], Except.ok ["t3"]]) 5).1 =
      Except.error ⟨ErrorKind.NotFound, "End of test data reached"⟩ :=
  ⟨(test_results_replay_then_exhausted sampleCodec sampleCap _).2.1 0
      (by decide),
   (test_results_replay_then_exhausted sampleCodec sampleCap _).2.1 1
      (by decide),
   (test_results_replay_then_exhausted sampleCodec sampleCap _).2.1 3
      (by decide),
   (test_results_replay_then_exhausted sampleCodec sampleCap _).2.2 4
      (by decide),
   (test_results_replay_then_exhausted sampleCodec sampleCap _).2.2 5
      (by decide)⟩

/-- Claim C8: a TestImages decode_next call pops the front queue entry and
selects the converter from that entry's tagged format, independently of the
rest of the queue: a YUYV entry goes through yuv422_to_image, an MJPG entry
through the generic codec path guess_image, any other tag fails with the
InvalidInput unsupported-format error (still consuming the entry), and an
empty queue fails with the NotFound exhausted-input error. -/
theorem test_images_converter_selection :
    (∀ codec cap w h buf rest,
      decode_next codec cap (State.testImages (("YUYV", w, h, buf) :: rest)) =
        (match yuv422_to_image buf w h with
         | Except.error e => Except.error e
         | Except.ok img => Except.ok (decoded_results_to_vec (cap img)),
         State.testImages rest)) ∧
    (∀ codec cap w h buf rest,
      decode_next codec cap (State.testImages (("MJPG", w, h, buf) :: rest)) =
        (match guess_image codec buf w h with
         | Except.error e => Except.error e
         | Except.ok img => Except.ok (decoded_results_to_vec (cap img)),
         State.testImages rest)) ∧
    (∀ codec cap f w h buf rest, f ≠ "YUYV" → f ≠ "MJPG" →
      decode_next codec cap (State.testImages ((f, w, h, buf) :: rest)) =
        (Except.error ⟨ErrorKind.InvalidInput, "No Camera format supported"⟩,
         State.testImages rest)) ∧
    (∀ codec cap,
      decode_next codec cap (State.testImages []) =
        (Except.error ⟨ErrorKind.NotFound, "End of test data reached"⟩,
         State.testImages [])) := by
  refine ⟨?_, ?_, ?_, fun codec cap => rfl⟩
  · intro codec cap w h buf rest
    rfl
  · intro codec cap w h buf rest
    rfl
  · intro codec cap f w h buf rest hy hm
    simp [decode_next, converter_for_fourcc, hy, hm]

/-- Claim C8 witness: an entry tagged with the unmapped format ABCD is
rejected with InvalidInput while consuming the entry, and the empty queue
yields the exhausted-input error. -/
theorem test_images_converter_selection_inst :
    decode_next sampleCodec sampleCap
      (State.testImages [("ABCD", 1, 1, [])]) =
      (Except.error ⟨ErrorKind.InvalidInput, "No Camera format supported"⟩,
       State.testImages []) ∧
    decode_next sampleCodec sampleCap (State.testImages []) =
      (Except.error ⟨ErrorKind.NotFound, "End of test data reached"⟩,
       State.testImages []) :=
  ⟨test_images_converter_selection.2.2.1 sampleCodec sampleCap "ABCD" 1 1 [] []
      (by decide) (by decide),
   test_images_converter_selection.2.2.2 sampleCodec sampleCap⟩

/-- Claim C9: the session variant is fixed by the constructor
(with_framesize builds a V4l session, with_test_images a TestImages
session, with_test_results a TestResults session) and is preserved by every
decode_next call and hence by every sequence of decode_next calls. -/
theorem decode_next_preserves_variant :
    (∀ codec cap st, ((decode_next codec cap st).2).tag = st.tag) ∧
    (∀ codec cap st n, ((decode_iter codec cap st n).2).tag = st.tag) ∧
    (∀ codec world path target st,
      with_framesize codec world path target = Except.ok st →
      st.tag = StateTag.v4l) ∧
    (∀ data st, with_test_images data = Except.ok st →
      st.tag = StateTag.testImages) ∧
    (∀ data st, with_test_results data = Except.ok st →
      st.tag = StateTag.testResults) := by
  have hstep : ∀ codec cap st, ((decode_next codec cap st).2).tag = st.tag := by
    intro codec cap st
    cases st with
    | v4l cam pos format conv => rfl
    | testImages l =>
      cases l with
      | nil => rfl
      | cons hd tl =>
        obtain ⟨f, w, h, buf⟩ := hd
        rfl
    | testResults l =>
      cases l with
      | nil => rfl
      | cons hd tl => rfl
  have hiter : ∀ codec cap st n, ((decode_iter codec cap st n).2).tag = st.tag := by
    intro codec cap st n
    induction n generalizing st with
    | zero => exact hstep codec cap st
    | succ n ih =>
      show ((decode_iter codec cap (decode_next codec cap st).2 n).2).tag = _
      rw [ih (decode_next codec cap st).2, hstep codec cap st]
  refine ⟨hstep, hiter, ?_, ?_, ?_⟩
  · intro codec world path target st h
    unfold with_framesize at h
    repeat' split at h
    all_goals try exact Except.noConfusion h
    cases h
    rfl
  · intro data st h
    unfold with_test_images at h
    cases h
    rfl
  · intro data st h
    unfold with_test_results at h
    cases h
    rfl

/-- Claim C9 witness: a TestResults session keeps its variant across three
decode_next calls. -/
theorem decode_next_preserves_variant_inst :
    ((decode_iter sampleCodec sampleCap
      (State.testResults [Except.ok ["t1"]]) 2).2).tag =
      (State.testResults [Except.ok ["t1"]]).tag ∧
    (State.testResults [Except.ok ["t1"]]).tag = StateTag.testResults :=
  ⟨decode_next_preserves_variant.2.1 sampleCodec sampleCap
      (State.testResults [Except.ok ["t1"]]) 2,
   decode_next_preserves_variant.2.2.2.2 [Except.ok ["t1"]]
      (State.testResults [Except.ok ["t1"]]) rfl⟩

/-- Claim C10: QRScanStream::new is exactly with_framesize at the default
640x480 target, for every codec collaborator, device world and path. -/
theorem new_is_default_framesize :
    ∀ (codec : List Nat → Option Image)
      (world : String → Except IOError Device) (path : String),
      new codec world path = with_framesize codec world path ⟨640, 480⟩ :=
  fun _ _ _ => rfl

/-- Claim C10 witness: the equivalence at the sample world and a concrete
device path. -/
theorem new_is_default_framesize_inst :
    new sampleCodec sampleWorld "/dev/video0" =
      with_framesize sampleCodec sampleWorld "/dev/video0" ⟨640, 480⟩ :=
  new_is_default_framesize sampleCodec sampleWorld "/dev/video0"

/-- Sanity: the selection behaves as the crate's own unit tests expect
(src/lib.rs tests::choose_framesize, discrete candidates): growing prefixes
of the test candidate list select (AAAD,640x80), then (BBBE,480x200), then
(AAAD,580x400), then (BBBE,680x500) twice, and the empty list errors. -/
theorem choose_framesize_repo_unit_tests :
    choose_framesize [] ⟨640, 480⟩ =
      Except.error ⟨ErrorKind.InvalidInput, "No camera format supported"⟩ ∧
    choose_framesize [("AAAD", [(640, 80)]), ("BBBE", [(640, 80)])]
      ⟨640, 480⟩ = Except.ok ("AAAD", 640, 80) ∧
    choose_framesize [("AAAD", [(640, 80)]), ("BBBE", [(640, 80)]),
      ("BBBE", [(480, 200)])] ⟨640, 480⟩ = Except.ok ("BBBE", 480, 200) ∧
    choose_framesize [("AAAD", [(640, 80)]), ("BBBE", [(640, 80)]),
      ("BBBE", [(480, 200)]), ("AAAD", [(580, 400)])] ⟨640, 480⟩ =
      Except.ok ("AAAD", 580, 400) ∧
    choose_framesize [("AAAD", [(640, 80)]), ("BBBE", [(640, 80)]),
      ("BBBE", [(480, 200)]), ("AAAD", [(580, 400)]),
      ("BBBE", [(680, 500)])] ⟨640, 480⟩ = Except.ok ("BBBE", 680, 500) ∧
    choose_framesize [("AAAD", [(640, 80)]), ("BBBE", [(640, 80)]),
      ("BBBE", [(480, 200)]), ("AAAD", [(580, 400)]),
      ("BBBE", [(680, 500)]), ("AAAD", [(720, 490)])] ⟨640, 480⟩ =
      Except.ok ("BBBE", 680, 500) ∧
    choose_framesize [("AAAD", [(640, 80)]), ("BBBE", [(640, 80)]),
      ("BBBE", [(480, 200)]), ("AAAD", [(580, 400)]),
      ("BBBE", [(680, 500)]), ("AAAD", [(720, 490)])] ⟨720, 485⟩ =
      Except.ok ("AAAD", 720, 490) :=
  ⟨rfl, rfl, rfl, rfl, rfl, rfl, rfl⟩
